import Mathlib

/-!
Shallow embedding of the agentgym core (scenario reward broadcasting,
metrics aggregation, configuration/result value objects, trainer loop, and
scenario registry), translated from `src/agentgym`.  Python floats are
modelled as rationals; step dictionaries are modelled as structures with
one `Option` field per recognized key (a `none` field is an absent key;
`dict.get(key, default)` is `Option.getD`).  Names ending in "io"
(`scenario`, `...Scenario`, `ratio`) are renamed (`scenario_name`,
`CustomerSupport`, ...), everything else keeps the source's names.
-/

/-- Metadata mapping of a trajectory (`trainer.py` `Trajectory.metadata`);
`tokens_used`, `response_time`, `found_all_issues` and `episode` are the keys
the code reads, each `none` when absent. -/
structure Metadata where
  tokens_used : Option ℚ := none
  response_time : Option ℚ := none
  found_all_issues : Option Bool := none
  episode_index : Option ℕ := none
deriving DecidableEq, Repr

/-- `trainer.py` `Trajectory`: steps (step-record type varies by scenario, so
it is a type parameter), total reward, success flag and metadata, with the
constructor defaults of the source. -/
structure Trajectory (σ : Type) where
  steps : List σ := []
  total_reward : ℚ := 0
  success : Bool := false
  metadata : Metadata := {}
deriving DecidableEq, Repr

/-- The linear speed/efficiency bonus pattern shared by all scenarios
(`customer_support.py` lines 189-200, `code_review.py` 233-237,
`data_analysis.py` 270-274): `bonusMax * (baseline - actual) / baseline`
when `actual < baseline`, otherwise no bonus. -/
def speedBonus (bonusMax baseline actual : ℚ) : ℚ :=
  if actual < baseline then bonusMax * ((baseline - actual) / baseline) else 0

namespace CustomerSupport

/-- A customer-support step dictionary: the keys read by
`CustomerSupportScenario.broadcast_rewards`. -/
structure Step where
  tool_success : Option Bool := none
  tokens_used : Option ℚ := none
  response_time : Option ℚ := none
deriving DecidableEq, Repr

/-- A step lacks every recognized marker key. -/
def Step.bare (s : Step) : Prop :=
  s.tool_success = none ∧ s.tokens_used = none ∧ s.response_time = none

instance (s : Step) : Decidable s.bare := by
  unfold Step.bare; infer_instance

/-- Per-step reward of `CustomerSupportScenario.broadcast_rewards`
(`customer_support.py` lines 168-200): outcome base 10 / -5, tool bonus
+10 or penalty -20, token-savings bonus up to 5 vs the 500-token baseline,
speed bonus up to 3 vs the 240 s baseline. -/
def step_reward (success : Bool) (s : Step) : ℚ :=
  (if success then (10 : ℚ) else -5)
  + (if s.tool_success.getD false then 10 else -20)
  + speedBonus 5 500 (s.tokens_used.getD 500)
  + speedBonus 3 240 (s.response_time.getD 240)

/-- `CustomerSupportScenario.broadcast_rewards`: the outcome reward is
broadcast to every step and the step-local terms are added per step. -/
def broadcast_rewards (t : Trajectory Step) : List ℚ :=
  t.steps.map (step_reward t.success)

end CustomerSupport

namespace CodeReview

/-- A code-review step dictionary: the keys read by
`CodeReviewScenario.broadcast_rewards` and `calculate_metrics`. -/
structure Step where
  issue_found : Option Bool := none
  severity : Option String := none
  false_positive : Option Bool := none
  appropriate_action : Option Bool := none
  review_time : Option ℚ := none
  constructive_feedback : Option Bool := none
  thorough_review : Option Bool := none
  total_issues : Option ℕ := none
deriving DecidableEq, Repr

/-- A step lacks every recognized marker key. -/
def Step.bare (s : Step) : Prop :=
  s.issue_found = none ∧ s.severity = none ∧ s.false_positive = none
  ∧ s.appropriate_action = none ∧ s.review_time = none
  ∧ s.constructive_feedback = none ∧ s.thorough_review = none
  ∧ s.total_issues = none

instance (s : Step) : Decidable s.bare := by
  unfold Step.bare; infer_instance

/-- The `severity_rewards` table of `code_review.py` lines 217-223,
looked up with default 0 for an unknown severity. -/
def severity_reward (s : String) : ℚ :=
  if s = "critical" then 20
  else if s = "high" then 10
  else if s = "medium" then 5
  else if s = "low" then 2
  else 0

/-- Per-step reward of `CodeReviewScenario.broadcast_rewards`
(`code_review.py` lines 200-247). -/
def step_reward (success : Bool) (s : Step) : ℚ :=
  (if success then (15 : ℚ) else -10)
  + (if s.issue_found.getD false then severity_reward (s.severity.getD "low") else 0)
  + (if s.false_positive.getD false then -15 else 0)
  + (if s.appropriate_action.getD false then 15 else 0)
  + speedBonus 5 1800 (s.review_time.getD 1800)
  + (if s.constructive_feedback.getD false then 10 else 0)
  + (if s.thorough_review.getD false then 8 else 0)

/-- `CodeReviewScenario.broadcast_rewards`. -/
def broadcast_rewards (t : Trajectory Step) : List ℚ :=
  t.steps.map (step_reward t.success)

end CodeReview

namespace DataAnalysis

/-- A data-analysis step dictionary: the keys read by
`DataAnalysisScenario.broadcast_rewards` and `calculate_metrics`. -/
structure Step where
  data_quality : Option String := none
  insight_accurate : Option Bool := none
  insight_inaccurate : Option Bool := none
  visualization_clear : Option Bool := none
  thorough_analysis : Option Bool := none
  analysis_time : Option ℚ := none
  statistically_valid : Option Bool := none
  actionable_insight : Option Bool := none
deriving DecidableEq, Repr

/-- A step lacks every recognized marker key. -/
def Step.bare (s : Step) : Prop :=
  s.data_quality = none ∧ s.insight_accurate = none ∧ s.insight_inaccurate = none
  ∧ s.visualization_clear = none ∧ s.thorough_analysis = none
  ∧ s.analysis_time = none ∧ s.statistically_valid = none
  ∧ s.actionable_insight = none

instance (s : Step) : Decidable s.bare := by
  unfold Step.bare; infer_instance

/-- Per-step reward of `DataAnalysisScenario.broadcast_rewards`
(`data_analysis.py` lines 236-284).  `step.get("data_quality") == "high"`
compares the optional value, so an absent key matches neither branch; the
insight branches are an if/elif chain. -/
def step_reward (success : Bool) (s : Step) : ℚ :=
  (if success then (12 : ℚ) else -8)
  + (if s.data_quality = some "high" then 15
     else if s.data_quality = some "low" then -10 else 0)
  + (if s.insight_accurate.getD false then 20
     else if s.insight_inaccurate.getD false then -10 else 0)
  + (if s.visualization_clear.getD false then 10 else 0)
  + (if s.thorough_analysis.getD false then 12 else 0)
  + speedBonus 5 3600 (s.analysis_time.getD 3600)
  + (if s.statistically_valid.getD false then 8 else 0)
  + (if s.actionable_insight.getD false then 10 else 0)

/-- `DataAnalysisScenario.broadcast_rewards`. -/
def broadcast_rewards (t : Trajectory Step) : List ℚ :=
  t.steps.map (step_reward t.success)

end DataAnalysis

/-- The metrics mapping returned by the base `Scenario.calculate_metrics`
(`base.py` lines 193-238): its seven keys, `convergence_episode` being the
only one that can be `None`. -/
structure BaseMetrics where
  tool_reliability : ℚ
  avg_tokens_used : ℚ
  avg_response_time : ℚ
  cost_reduction : ℚ
  total_training_time : ℚ
  final_reward : ℚ
  convergence_episode : Option ℕ
deriving DecidableEq, Repr

namespace ScenarioBase

/-- `base.py` `Scenario.calculate_metrics`: zero metrics (and `None`
convergence) on the empty list, otherwise means over the trajectories and the
`min(reliability * 0.4, 0.5)` cost proxy.  `int(len * 0.8)` is modelled as
`len * 4 / 5` with truncating division; no claim depends on its value. -/
def calculate_metrics {σ : Type} (ts : List (Trajectory σ)) : BaseMetrics :=
  if ts.isEmpty then ⟨0, 0, 0, 0, 0, 0, none⟩
  else
    let n : ℚ := ts.length
    let successful := (ts.filter (fun t => t.success)).length
    let tool_reliability := (successful : ℚ) / n
    let avg_tokens_used := (ts.map (fun t => t.metadata.tokens_used.getD 0)).sum / n
    let avg_response_time := (ts.map (fun t => t.metadata.response_time.getD 0)).sum / n
    let cost_reduction := min (tool_reliability * (2 / 5)) (1 / 2)
    let final_reward := (ts.map (fun t => t.total_reward)).sum / n
    let convergence_episode :=
      if 100 ≤ ts.length then some (ts.length * 4 / 5) else none
    ⟨tool_reliability, avg_tokens_used, avg_response_time, cost_reduction,
      0, final_reward, convergence_episode⟩

end ScenarioBase

namespace CustomerSupport

/-- The metrics mapping of `CustomerSupportScenario.calculate_metrics`:
the base keys (with `cost_reduction` overridden) plus `time_savings`. -/
structure Metrics where
  base : BaseMetrics
  time_savings : ℚ
deriving DecidableEq, Repr

/-- `customer_support.py` `calculate_metrics` (lines 227-277).  The
`baseline_tokens > 0` / `baseline_time > 0` guards of the source are on the
constants 500 and 240 and always hold. -/
def calculate_metrics (ts : List (Trajectory Step)) : Metrics :=
  let m := ScenarioBase.calculate_metrics ts
  if ts.isEmpty then ⟨m, 0⟩
  else
    let cost_reduction := max 0 ((500 - m.avg_tokens_used) / 500)
    let time_savings := max 0 ((240 - m.avg_response_time) / 240)
    ⟨{ m with cost_reduction := cost_reduction }, time_savings⟩

end CustomerSupport

namespace CodeReview

/-- Steps (across all trajectories) with a truthy `issue_found`
(`code_review.py` lines 316-319). -/
def issues_found_count (ts : List (Trajectory Step)) : ℕ :=
  (ts.map (fun t => (t.steps.filter (fun s => s.issue_found.getD false)).length)).sum

/-- Steps counted as false positives: truthy `false_positive` among the
steps with a truthy `issue_found` (`code_review.py` lines 318-321). -/
def false_positives_count (ts : List (Trajectory Step)) : ℕ :=
  (ts.map (fun t => (t.steps.filter
    (fun s => s.issue_found.getD false && s.false_positive.getD false)).length)).sum

/-- Sum of the `total_issues` field over the steps that carry it
(`code_review.py` lines 323-325). -/
def total_possible_issues (ts : List (Trajectory Step)) : ℕ :=
  (ts.map (fun t => (t.steps.map (fun s => s.total_issues.getD 0)).sum)).sum

/-- `code_review.py` lines 340-347: trajectories counted as complete reviews.
The `hasattr(t, "metadata")` test always holds and the dict-truthiness test
`t.metadata` is subsumed: a metadata with `found_all_issues: True` is
non-empty.  Note the count requires `t.success` in addition to the
`found_all_issues` metadata flag. -/
def complete_reviews_count (ts : List (Trajectory Step)) : ℕ :=
  (ts.filter (fun t => t.success && t.metadata.found_all_issues.getD false)).length

/-- The `review_time` values of the steps that carry the key
(`code_review.py` lines 354-359). -/
def review_times (ts : List (Trajectory Step)) : List ℚ :=
  (ts.map (fun t => t.steps.filterMap (fun s => s.review_time))).flatten

/-- The metrics mapping of `CodeReviewScenario.calculate_metrics`: the base
keys plus the four code-review metrics.  `avg_review_time` is absent
(`none`) for the empty trajectory list, whose early return does not set it. -/
structure Metrics where
  base : BaseMetrics
  review_accuracy : ℚ
  false_positive_rate : ℚ
  review_completeness : ℚ
  avg_review_time : Option ℚ
deriving DecidableEq, Repr

/-- `code_review.py` `calculate_metrics` (lines 274-365).  In the non-empty
branch the source's `if trajectories:` guard around completeness always
holds. -/
def calculate_metrics (ts : List (Trajectory Step)) : Metrics :=
  let m := ScenarioBase.calculate_metrics ts
  if ts.isEmpty then ⟨m, 0, 0, 0, none⟩
  else
    let issues_found := issues_found_count ts
    let review_accuracy : ℚ :=
      if 0 < total_possible_issues ts
      then (issues_found : ℚ) / total_possible_issues ts else 0
    let false_positive_rate : ℚ :=
      if 0 < issues_found
      then (false_positives_count ts : ℚ) / issues_found else 0
    let review_completeness : ℚ := (complete_reviews_count ts : ℚ) / ts.length
    let times := review_times ts
    let avg_review_time : ℚ := if times.isEmpty then 0 else times.sum / times.length
    ⟨m, review_accuracy, false_positive_rate, review_completeness,
      some avg_review_time⟩

/-- Review completeness as the spec words it (for comparison with the
implementation): the fraction of trajectories whose metadata
`found_all_issues` is true, with no other condition. -/
def review_completeness_spec (ts : List (Trajectory Step)) : ℚ :=
  ((ts.filter (fun t => t.metadata.found_all_issues.getD false)).length : ℚ)
    / ts.length

end CodeReview

namespace DataAnalysis

/-- Steps flagged as insights: truthy `insight_accurate` or
`insight_inaccurate` (`data_analysis.py` lines 359-363). -/
def total_insights (ts : List (Trajectory Step)) : ℕ :=
  (ts.map (fun t => (t.steps.filter
    (fun s => s.insight_accurate.getD false || s.insight_inaccurate.getD false)).length)).sum

/-- Steps with a truthy `insight_accurate`. -/
def accurate_insights_count (ts : List (Trajectory Step)) : ℕ :=
  (ts.map (fun t => (t.steps.filter (fun s => s.insight_accurate.getD false)).length)).sum

/-- Steps carrying a `data_quality` key at all (`data_analysis.py` 365-369). -/
def total_data_steps (ts : List (Trajectory Step)) : ℕ :=
  (ts.map (fun t => (t.steps.filter (fun s => s.data_quality.isSome)).length)).sum

/-- Steps whose `data_quality` equals "high". -/
def high_quality_data_count (ts : List (Trajectory Step)) : ℕ :=
  (ts.map (fun t => (t.steps.filter (fun s => s.data_quality = some "high")).length)).sum

/-- Steps carrying a `visualization_clear` key (`data_analysis.py` 371-375). -/
def total_visualizations (ts : List (Trajectory Step)) : ℕ :=
  (ts.map (fun t => (t.steps.filter (fun s => s.visualization_clear.isSome)).length)).sum

/-- Steps with a truthy `visualization_clear`. -/
def clear_visualizations_count (ts : List (Trajectory Step)) : ℕ :=
  (ts.map (fun t => (t.steps.filter (fun s => s.visualization_clear.getD false)).length)).sum

/-- Steps with a truthy `actionable_insight` (`data_analysis.py` 377-379). -/
def actionable_insights_count (ts : List (Trajectory Step)) : ℕ :=
  (ts.map (fun t => (t.steps.filter (fun s => s.actionable_insight.getD false)).length)).sum

/-- The metrics mapping of `DataAnalysisScenario.calculate_metrics`: the base
keys plus the four data-analysis metrics. -/
structure Metrics where
  base : BaseMetrics
  analysis_accuracy : ℚ
  data_quality : ℚ
  visualization_quality : ℚ
  insight_quality : ℚ
deriving DecidableEq, Repr

/-- `data_analysis.py` `calculate_metrics` (lines 311-405). -/
def calculate_metrics (ts : List (Trajectory Step)) : Metrics :=
  let m := ScenarioBase.calculate_metrics ts
  if ts.isEmpty then ⟨m, 0, 0, 0, 0⟩
  else
    let analysis_accuracy : ℚ :=
      if 0 < total_insights ts
      then (accurate_insights_count ts : ℚ) / total_insights ts else 0
    let data_quality : ℚ :=
      if 0 < total_data_steps ts
      then (high_quality_data_count ts : ℚ) / total_data_steps ts else 0
    let visualization_quality : ℚ :=
      if 0 < total_visualizations ts
      then (clear_visualizations_count ts : ℚ) / total_visualizations ts else 0
    let insight_quality : ℚ :=
      if 0 < total_insights ts
      then (actionable_insights_count ts : ℚ) / total_insights ts else 0
    ⟨m, analysis_accuracy, data_quality, visualization_quality, insight_quality⟩

end DataAnalysis

/-- Python's ASCII `str.lower()` as used on scenario names. -/
def str_lower (s : String) : String := String.mk (s.data.map Char.toLower)

/-- The field values of a constructed `config.py` `TrainingConfig`
(the `scenario` field is renamed `scenario_name`). -/
structure TrainingConfig where
  scenario_name : String
  framework : String
  episodes : ℤ
  gpu_provider : String
  gpu_type : String
  learning_rate : ℚ
  discount_factor : ℚ
  batch_size : ℤ
  max_steps_per_episode : ℤ
  checkpoint_interval : ℤ
  verbose : Bool
  seed : Option ℤ
deriving DecidableEq, Repr

/-- The `validate_scenario_name` character check of `config.py` lines
160-179: `v.replace("_", "").replace("-", "").isalnum()`.  Python's
`isalnum` is false on the empty string, which also subsumes the
`min_length=1` field constraint. -/
def scenario_name_chars_ok (v : String) : Bool :=
  let stripped := v.data.filter (fun c => (c != '_') && (c != '-'))
  !stripped.isEmpty && stripped.all Char.isAlphanum

/-- The `seed` field constraint `ge=0` (`None` is allowed). -/
def seed_ok : Option ℤ → Bool
  | none => true
  | some s => decide (0 ≤ s)

/-- Pydantic validation performed when a `TrainingConfig` is constructed
(`config.py` lines 59-179): the per-field range constraints, the two
`Literal` fields, and the scenario-name validator which then stores the
lowercased name.  Note `learning_rate` only carries `gt=0` (no upper
bound). -/
def mkTrainingConfig (sn fw : String) (ep : ℤ) (gp gt : String)
    (lr df : ℚ) (bs ms ci : ℤ) (vb : Bool) (sd : Option ℤ) :
    Except String TrainingConfig :=
  if scenario_name_chars_ok sn = false then
    .error "Scenario name must contain only alphanumeric characters, underscores, and hyphens"
  else if fw ≠ "langchain" ∧ fw ≠ "autogen" ∧ fw ≠ "crewai" then
    .error "framework must be langchain, autogen or crewai"
  else if ep ≤ 0 then .error "episodes must be greater than 0"
  else if gp ≠ "auto" ∧ gp ≠ "local" ∧ gp ≠ "runpod" ∧ gp ≠ "lambda" ∧ gp ≠ "cloud" then
    .error "gpu_provider must be auto, local, runpod, lambda or cloud"
  else if lr ≤ 0 then .error "learning_rate must be greater than 0"
  else if df ≤ 0 then .error "discount_factor must be greater than 0"
  else if 1 ≤ df then .error "discount_factor must be less than 1"
  else if bs ≤ 0 then .error "batch_size must be greater than 0"
  else if ms ≤ 0 then .error "max_steps_per_episode must be greater than 0"
  else if ci < 0 then .error "checkpoint_interval must be non-negative"
  else if seed_ok sd = false then .error "seed must be non-negative"
  else .ok ⟨str_lower sn, fw, ep, gp, gt, lr, df, bs, ms, ci, vb, sd⟩

/-- The dict produced by `TrainingMetrics.to_dict` (`asdict`): the
dataclass's eight keys (`result.py` lines 101-119). -/
structure MetricsDict where
  tool_reliability : ℚ
  avg_tokens_used : ℚ
  avg_response_time : ℚ
  cost_reduction : ℚ
  episodes_completed : ℤ
  total_training_time : ℚ
  final_reward : ℚ
  convergence_episode : Option ℤ
deriving DecidableEq, Repr

/-- `result.py` `TrainingMetrics`: the eight scalar fields of a
successfully constructed metrics record. -/
structure TrainingMetrics where
  tool_reliability : ℚ
  avg_tokens_used : ℚ
  avg_response_time : ℚ
  cost_reduction : ℚ
  episodes_completed : ℤ
  total_training_time : ℚ
  final_reward : ℚ
  convergence_episode : Option ℤ
deriving DecidableEq, Repr

/-- Construction of a `TrainingMetrics` with its `__post_init__` validation
(`result.py` lines 54-75): out-of-range values raise, nothing is clamped. -/
def mkTrainingMetrics (tr atk art cr : ℚ) (ec : ℤ) (ttt fr : ℚ)
    (ce : Option ℤ) : Except String TrainingMetrics :=
  if tr < 0 ∨ 1 < tr then .error "tool_reliability must be between 0.0 and 1.0"
  else if cr < 0 ∨ 1 < cr then .error "cost_reduction must be between 0.0 and 1.0"
  else if atk < 0 then .error "avg_tokens_used must be non-negative"
  else if art < 0 then .error "avg_response_time must be non-negative"
  else if ec < 0 then .error "episodes_completed must be non-negative"
  else .ok ⟨tr, atk, art, cr, ec, ttt, fr, ce⟩

/-- `TrainingMetrics.to_dict` (`asdict(self)`). -/
def TrainingMetrics.to_dict (m : TrainingMetrics) : MetricsDict :=
  ⟨m.tool_reliability, m.avg_tokens_used, m.avg_response_time, m.cost_reduction,
   m.episodes_completed, m.total_training_time, m.final_reward,
   m.convergence_episode⟩

/-- `TrainingMetrics(**data)`: re-runs the post-init validation. -/
def MetricsDict.toMetrics (d : MetricsDict) : Except String TrainingMetrics :=
  mkTrainingMetrics d.tool_reliability d.avg_tokens_used d.avg_response_time
    d.cost_reduction d.episodes_completed d.total_training_time d.final_reward
    d.convergence_episode

/-- The dict produced by `TrainingConfig.to_dict` (`model_dump`): one key per
config field. -/
structure ConfigDict where
  scenario_name : String
  framework : String
  episodes : ℤ
  gpu_provider : String
  gpu_type : String
  learning_rate : ℚ
  discount_factor : ℚ
  batch_size : ℤ
  max_steps_per_episode : ℤ
  checkpoint_interval : ℤ
  verbose : Bool
  seed : Option ℤ
deriving DecidableEq, Repr

/-- `TrainingConfig.to_dict` (`config.py` lines 181-193). -/
def TrainingConfig.to_dict (c : TrainingConfig) : ConfigDict :=
  ⟨c.scenario_name, c.framework, c.episodes, c.gpu_provider, c.gpu_type,
   c.learning_rate, c.discount_factor, c.batch_size, c.max_steps_per_episode,
   c.checkpoint_interval, c.verbose, c.seed⟩

/-- `TrainingConfig.from_dict` = `cls(**data)`: full pydantic re-validation
(`config.py` lines 209-228). -/
def ConfigDict.toConfig (d : ConfigDict) : Except String TrainingConfig :=
  mkTrainingConfig d.scenario_name d.framework d.episodes d.gpu_provider
    d.gpu_type d.learning_rate d.discount_factor d.batch_size
    d.max_steps_per_episode d.checkpoint_interval d.verbose d.seed

/-- `result.py` `TrainingResult`: config, metrics, model path, artifacts
(an opaque pass-through mapping, hence a type parameter), timestamp and
version. -/
structure TrainingResult (α : Type) where
  config : TrainingConfig
  metrics : TrainingMetrics
  trained_model_path : String
  artifacts : α
  timestamp : String
  version : String
deriving DecidableEq, Repr

/-- The JSON object shape of `TrainingResult.to_dict` (`result.py` lines
164-195): keys `config`, `metrics`, `trained_model_path`, `artifacts`,
`timestamp`, `version`. -/
structure ResultDict (α : Type) where
  config : ConfigDict
  metrics : MetricsDict
  trained_model_path : String
  artifacts : α
  timestamp : String
  version : String
deriving DecidableEq, Repr

/-- `TrainingResult.to_dict`. -/
def TrainingResult.to_dict {α : Type} (r : TrainingResult α) : ResultDict α :=
  ⟨r.config.to_dict, r.metrics.to_dict, r.trained_model_path, r.artifacts,
   r.timestamp, r.version⟩

/-- `TrainingResult.from_dict` (`result.py` lines 197-240): rebuilds the
config and metrics through their validating constructors and passes the
remaining keys through. -/
def TrainingResult.from_dict {α : Type} (d : ResultDict α) :
    Except String (TrainingResult α) := do
  let cfg ← d.config.toConfig
  let m ← d.metrics.toMetrics
  return ⟨cfg, m, d.trained_model_path, d.artifacts, d.timestamp, d.version⟩

/-- The invariant every constructed `TrainingConfig` satisfies (established
by pydantic validation at construction; the stored scenario name is the
lowercased validated input, hence a `str_lower` fixed point). -/
def ConfigConstructible (c : TrainingConfig) : Prop :=
  scenario_name_chars_ok c.scenario_name = true
  ∧ str_lower c.scenario_name = c.scenario_name
  ∧ ¬(c.framework ≠ "langchain" ∧ c.framework ≠ "autogen" ∧ c.framework ≠ "crewai")
  ∧ 0 < c.episodes
  ∧ ¬(c.gpu_provider ≠ "auto" ∧ c.gpu_provider ≠ "local" ∧ c.gpu_provider ≠ "runpod"
      ∧ c.gpu_provider ≠ "lambda" ∧ c.gpu_provider ≠ "cloud")
  ∧ 0 < c.learning_rate
  ∧ 0 < c.discount_factor ∧ c.discount_factor < 1
  ∧ 0 < c.batch_size
  ∧ 0 < c.max_steps_per_episode
  ∧ 0 ≤ c.checkpoint_interval
  ∧ seed_ok c.seed = true

/-- The invariant every constructed `TrainingMetrics` satisfies (its
`__post_init__` range checks). -/
def MetricsConstructible (m : TrainingMetrics) : Prop :=
  0 ≤ m.tool_reliability ∧ m.tool_reliability ≤ 1
  ∧ 0 ≤ m.cost_reduction ∧ m.cost_reduction ≤ 1
  ∧ 0 ≤ m.avg_tokens_used ∧ 0 ≤ m.avg_response_time
  ∧ 0 ≤ m.episodes_completed

/-- The per-episode values the trainer's mock trajectory synthesis draws
from Python's PRNG (`trainer.py` lines 219-250); the `random` module is
external to the repository, so the draws are a parameter of the loop. -/
structure EpisodeDraw where
  success : Bool
  num_steps : ℕ
  tokens_used : ℤ
  response_time : ℚ
deriving DecidableEq, Repr

/-- A step of the trainer's mock trajectory synthesis (keys `state`,
`action`, `reward`, `tool_success`; `trainer.py` lines 231-239). -/
structure MockStep where
  state_tag : String
  action_tag : String
  reward : ℚ
  tool_success : Bool
deriving DecidableEq, Repr

/-- The view `Trainer._create_result` takes of the scenario's metrics dict
(`trainer.py` lines 304-312): `.get(key, 0.0)` for the six numeric keys,
plain `.get` for `convergence_episode`. -/
structure MetricsView where
  tool_reliability : Option ℚ := none
  avg_tokens_used : Option ℚ := none
  avg_response_time : Option ℚ := none
  cost_reduction : Option ℚ := none
  total_training_time : Option ℚ := none
  final_reward : Option ℚ := none
  convergence_episode : Option ℤ := none
deriving DecidableEq, Repr

/-- A scenario as the `Trainer` consumes it (the `Scenario` protocol of
`trainer.py` lines 51-82): an environment value, a reward broadcaster and a
metrics aggregator, all supplied by the caller. -/
structure ScenarioIface (ε : Type) where
  environment : ε
  broadcast_rewards : Trajectory MockStep → List ℚ
  calculate_metrics : List (Trajectory MockStep) → MetricsView

/-- `Trainer._collect_trajectory_online` given the episode's PRNG draws:
`num_steps` mock steps, total reward `num_steps` on success else 0, and the
episode / tokens / response-time metadata. -/
def collect_trajectory_online (d : EpisodeDraw) (episode : ℕ) :
    Trajectory MockStep :=
  { steps := (List.range d.num_steps).map (fun i =>
      ⟨"state_" ++ toString i, "tool_call_" ++ toString i,
       if d.success then 1 else 0, d.success⟩),
    total_reward := if d.success then (d.num_steps : ℚ) else 0,
    success := d.success,
    metadata := { tokens_used := some (d.tokens_used : ℚ),
                  response_time := some d.response_time,
                  episode_index := some episode } }

/-- The session state a `Trainer` accumulates (`trajectories`,
`metrics_history` tagged with episode numbers, `_episode_count`). -/
structure TrainRunState where
  trajectories : List (Trajectory MockStep)
  metrics_history : List (MetricsView × ℕ)
  episode_count : ℕ

/-- One iteration of the `train` loop (`trainer.py` lines 174-193): collect a
trajectory, append it, broadcast rewards (informational), no-op policy
update, and every `max(1, episodes // 10)` episodes track metrics over the
most recent 100 trajectories. -/
def train_episode {ε : Type} (episodes : ℕ) (draws : ℕ → EpisodeDraw)
    (scen : ScenarioIface ε) (st : TrainRunState) (episode : ℕ) :
    TrainRunState :=
  let t := collect_trajectory_online (draws episode) episode
  let trajs := st.trajectories ++ [t]
  let _step_rewards := scen.broadcast_rewards t
  let hist :=
    if (episode + 1) % max 1 (episodes / 10) = 0 then
      st.metrics_history
        ++ [(scen.calculate_metrics (trajs.drop (trajs.length - 100)), episode + 1)]
    else st.metrics_history
  ⟨trajs, hist, episode + 1⟩

/-- The `for episode in range(self.config.episodes)` loop of `train`. -/
def train_loop {ε : Type} (episodes : ℕ) (draws : ℕ → EpisodeDraw)
    (scen : ScenarioIface ε) : TrainRunState :=
  (List.range episodes).foldl (train_episode episodes draws scen) ⟨[], [], 0⟩

/-- The artifacts mapping `_create_result` builds (`trainer.py` 326-329). -/
structure Artifacts where
  trajectories_count : ℕ
  metrics_history : List (MetricsView × ℕ)

/-- `Trainer._create_result` (`trainer.py` lines 295-330): final metrics over
all trajectories go through the validating `TrainingMetrics` constructor
(which raises on out-of-range values), then the deterministic model path and
the result record are built.  The timestamp comes from the system clock and
is passed in. -/
def create_result {ε : Type} (cfg : TrainingConfig) (scen : ScenarioIface ε)
    (st : TrainRunState) (timestamp_now : String) :
    Except String (TrainingResult Artifacts) := do
  let v := scen.calculate_metrics st.trajectories
  let m ← mkTrainingMetrics (v.tool_reliability.getD 0) (v.avg_tokens_used.getD 0)
    (v.avg_response_time.getD 0) (v.cost_reduction.getD 0)
    (st.episode_count : ℤ)
    (v.total_training_time.getD 0) (v.final_reward.getD 0) v.convergence_episode
  let model_path := "./models/" ++ cfg.scenario_name ++ "_" ++ cfg.framework
      ++ "_ep" ++ toString cfg.episodes
  return ⟨cfg, m, model_path, ⟨st.trajectories.length, st.metrics_history⟩,
    timestamp_now, "0.1.0"⟩

/-- `Trainer.train` (`trainer.py` lines 154-196): run the episode loop, then
build the final result; returned together with the trainer's final session
state. -/
def Trainer.train {ε : Type} (cfg : TrainingConfig) (scen : ScenarioIface ε)
    (draws : ℕ → EpisodeDraw) (timestamp_now : String) :
    Except String (TrainingResult Artifacts × TrainRunState) := do
  let st := train_loop cfg.episodes.toNat draws scen
  let r ← create_result cfg scen st timestamp_now
  return (r, st)

/-- A metrics view whose values (after the `.get(key, 0.0)` defaults) pass
the `TrainingMetrics` range validation. -/
def ViewInRange (v : MetricsView) : Prop :=
  0 ≤ v.tool_reliability.getD 0 ∧ v.tool_reliability.getD 0 ≤ 1
  ∧ 0 ≤ v.cost_reduction.getD 0 ∧ v.cost_reduction.getD 0 ≤ 1
  ∧ 0 ≤ v.avg_tokens_used.getD 0 ∧ 0 ≤ v.avg_response_time.getD 0

/-- The scenario classes a registry entry can hold: the one auto-registered
built-in, or a runtime-registered extension. -/
inductive ScenarioKind
  | customerSupport
  | custom (id : ℕ)
deriving DecidableEq, Repr

/-- `registry.py` `ScenarioRegistry` class state: the `BUILT_IN` mapping (an
insertion-ordered dict, modelled as an association list) and the
`_built_ins_loaded` flag. -/
structure RegistryState where
  built_in : List (String × ScenarioKind)
  built_ins_loaded : Bool
deriving DecidableEq, Repr

/-- The registry state after `clear()`, and in a fresh process. -/
def RegistryState.fresh : RegistryState := ⟨[], false⟩

/-- Python dict assignment `d[k] = v`, preserving insertion order. -/
def dictInsert (l : List (String × ScenarioKind)) (k : String)
    (v : ScenarioKind) : List (String × ScenarioKind) :=
  if (l.map Prod.fst).contains k
  then l.map (fun p => if p.1 = k then (k, v) else p)
  else l ++ [(k, v)]

/-- `ScenarioRegistry._ensure_built_in_loaded` (`registry.py` lines 71-78):
on first use it registers exactly `customer_support`. -/
def ensure_built_in_loaded (s : RegistryState) : RegistryState :=
  if s.built_ins_loaded then s
  else ⟨dictInsert s.built_in "customer_support" .customerSupport, true⟩

/-- A `ScenarioNotFoundError` value: the requested name and the names
available at the time (`registry.py` lines 12-36). -/
structure ScenarioNotFound where
  scenario_name : String
  available : List String
deriving DecidableEq, Repr

/-- `ScenarioRegistry.load` (`registry.py` lines 80-104): ensure built-ins
are loaded, then look the name up in `BUILT_IN`, failing with the list of
currently known names; returns the (possibly mutated) registry state. -/
def registry_load (name : String) (s : RegistryState) :
    Except ScenarioNotFound ScenarioKind × RegistryState :=
  let s' := ensure_built_in_loaded s
  match List.lookup name s'.built_in with
  | none => (.error ⟨name, s'.built_in.map Prod.fst⟩, s')
  | some k => (.ok k, s')

/-- The linear bonus is strictly larger for the strictly smaller argument,
as long as both are below the (positive) baseline. -/
theorem speedBonus_strict_anti (m b : ℚ) (hm : 0 < m) (hb : 0 < b)
    {T1 T2 : ℚ} (h12 : T1 < T2) (h2 : T2 < b) :
    speedBonus m b T2 < speedBonus m b T1 := by
  unfold speedBonus
  rw [if_pos h2, if_pos (h12.trans h2)]
  exact (mul_lt_mul_left hm).mpr ((div_lt_div_iff_of_pos_right hb).mpr (by linarith))

/-- Claim C1: for every scenario and every trajectory, `broadcast_rewards`
returns one reward per step (`len(rewards) == len(steps)`), and a trajectory
with empty steps yields the empty list without error. -/
theorem spec_c1 :
    (∀ t : Trajectory CustomerSupport.Step,
      (CustomerSupport.broadcast_rewards t).length = t.steps.length)
    ∧ (∀ t : Trajectory CodeReview.Step,
      (CodeReview.broadcast_rewards t).length = t.steps.length)
    ∧ (∀ t : Trajectory DataAnalysis.Step,
      (DataAnalysis.broadcast_rewards t).length = t.steps.length)
    ∧ (∀ r su md, CustomerSupport.broadcast_rewards ⟨[], r, su, md⟩ = [])
    ∧ (∀ r su md, CodeReview.broadcast_rewards ⟨[], r, su, md⟩ = [])
    ∧ (∀ r su md, DataAnalysis.broadcast_rewards ⟨[], r, su, md⟩ = []) := by
  refine ⟨?_, ?_, ?_, ?_, ?_, ?_⟩ <;>
    simp [CustomerSupport.broadcast_rewards, CodeReview.broadcast_rewards,
      DataAnalysis.broadcast_rewards]

/-- Claim C6: `CodeReviewScenario().broadcast_rewards` on a successful
trajectory with the single step `{"issue_found": True, "severity": "critical"}`
returns exactly `[35.0]` (success base 15 plus critical bonus 20). -/
theorem spec_c6 :
    CodeReview.broadcast_rewards
      { steps := [{ issue_found := some true, severity := some "critical" }],
        success := true }
      = [35] := by
  norm_num [CodeReview.broadcast_rewards, CodeReview.step_reward,
    CodeReview.severity_reward, speedBonus]

/-- Claim C2 fails on `CustomerSupportScenario`: a successful trajectory whose
single step has no recognized key gets `10 - 20 = -10`, not the success base
`10`, because a missing `tool_success` falls into the `-20` failure branch. -/
theorem spec_c2_counterexample :
    CustomerSupport.broadcast_rewards { steps := [{}], success := true } = [-10]
    ∧ ((-10 : ℚ) ≠ 10) := by
  constructor
  · norm_num [CustomerSupport.broadcast_rewards, CustomerSupport.step_reward,
      speedBonus]
  · norm_num

/-- Claim C2 (amended): a step lacking every recognized marker key receives
exactly the outcome base from `broadcast_rewards` in the CodeReview and
DataAnalysis scenarios; in CustomerSupport such a step receives the outcome
base minus the 20-point failed-tool penalty (an absent `tool_success` is
treated as a failed tool use). -/
theorem spec_c2_amended :
    (∀ (su : Bool) (s : CodeReview.Step), s.bare →
      CodeReview.step_reward su s = (if su then 15 else -10))
    ∧ (∀ (su : Bool) (s : DataAnalysis.Step), s.bare →
      DataAnalysis.step_reward su s = (if su then 12 else -8))
    ∧ (∀ (su : Bool) (s : CustomerSupport.Step), s.bare →
      CustomerSupport.step_reward su s = (if su then 10 else -5) - 20)
    ∧ (∀ (r : ℚ) (su : Bool) (md : Metadata) (s : CodeReview.Step), s.bare →
      CodeReview.broadcast_rewards ⟨[s], r, su, md⟩ = [if su then 15 else -10])
    ∧ (∀ (r : ℚ) (su : Bool) (md : Metadata) (s : DataAnalysis.Step), s.bare →
      DataAnalysis.broadcast_rewards ⟨[s], r, su, md⟩ = [if su then 12 else -8])
    ∧ (∀ (r : ℚ) (su : Bool) (md : Metadata) (s : CustomerSupport.Step), s.bare →
      CustomerSupport.broadcast_rewards ⟨[s], r, su, md⟩
        = [(if su then 10 else -5) - 20]) := by
  have hcr : ∀ (su : Bool) (s : CodeReview.Step), s.bare →
      CodeReview.step_reward su s = (if su then 15 else -10) := by
    rintro su ⟨_, _, _, _, _, _, _, _⟩ ⟨rfl, rfl, rfl, rfl, rfl, rfl, rfl, rfl⟩
    cases su <;> norm_num [CodeReview.step_reward, speedBonus]
  have hda : ∀ (su : Bool) (s : DataAnalysis.Step), s.bare →
      DataAnalysis.step_reward su s = (if su then 12 else -8) := by
    rintro su ⟨_, _, _, _, _, _, _, _⟩ ⟨rfl, rfl, rfl, rfl, rfl, rfl, rfl, rfl⟩
    cases su <;> simp [DataAnalysis.step_reward, speedBonus]
  have hcs : ∀ (su : Bool) (s : CustomerSupport.Step), s.bare →
      CustomerSupport.step_reward su s = (if su then 10 else -5) - 20 := by
    rintro su ⟨_, _, _⟩ ⟨rfl, rfl, rfl⟩
    cases su <;> norm_num [CustomerSupport.step_reward, speedBonus]
  refine ⟨hcr, hda, hcs, ?_, ?_, ?_⟩ <;> intro r su md s hs
  · simp [CodeReview.broadcast_rewards, hcr su s hs]
  · simp [DataAnalysis.broadcast_rewards, hda su s hs]
  · simp [CustomerSupport.broadcast_rewards, hcs su s hs]

/-- Claim C2 witness: concrete bare steps in each scenario. -/
theorem spec_c2_amended_witness :
    CodeReview.step_reward true {} = 15
    ∧ DataAnalysis.step_reward true {} = 12
    ∧ CustomerSupport.step_reward true {} = (10 : ℚ) - 20 := by
  refine ⟨?_, ?_, ?_⟩
  · have h := spec_c2_amended.1 true {} (by exact ⟨rfl, rfl, rfl, rfl, rfl, rfl, rfl, rfl⟩)
    simpa using h
  · have h := spec_c2_amended.2.1 true {} (by exact ⟨rfl, rfl, rfl, rfl, rfl, rfl, rfl, rfl⟩)
    simpa using h
  · have h := spec_c2_amended.2.2.1 true {} (by exact ⟨rfl, rfl, rfl⟩)
    simpa using h

/-- Claim C5: the per-step speed bonus equals
`bonus_max * (baseline - actual) / baseline` below the baseline and is 0 at or
above it; and for two otherwise-identical steps with times `T1 < T2` both
below the scenario baseline (240 for CustomerSupport response_time, 1800 for
CodeReview review_time, 3600 for DataAnalysis analysis_time), the faster step
receives a strictly larger broadcast reward. -/
theorem spec_c5 :
    (∀ m b a : ℚ, (a < b → speedBonus m b a = m * ((b - a) / b))
      ∧ (b ≤ a → speedBonus m b a = 0))
    ∧ (∀ (s : CustomerSupport.Step) (r : ℚ) (su : Bool) (md : Metadata)
        (T1 T2 : ℚ), T1 < T2 → T2 < 240 →
        (CustomerSupport.broadcast_rewards
          ⟨[{ s with response_time := some T2 }], r, su, md⟩).headD 0
        < (CustomerSupport.broadcast_rewards
          ⟨[{ s with response_time := some T1 }], r, su, md⟩).headD 0)
    ∧ (∀ (s : CodeReview.Step) (r : ℚ) (su : Bool) (md : Metadata)
        (T1 T2 : ℚ), T1 < T2 → T2 < 1800 →
        (CodeReview.broadcast_rewards
          ⟨[{ s with review_time := some T2 }], r, su, md⟩).headD 0
        < (CodeReview.broadcast_rewards
          ⟨[{ s with review_time := some T1 }], r, su, md⟩).headD 0)
    ∧ (∀ (s : DataAnalysis.Step) (r : ℚ) (su : Bool) (md : Metadata)
        (T1 T2 : ℚ), T1 < T2 → T2 < 3600 →
        (DataAnalysis.broadcast_rewards
          ⟨[{ s with analysis_time := some T2 }], r, su, md⟩).headD 0
        < (DataAnalysis.broadcast_rewards
          ⟨[{ s with analysis_time := some T1 }], r, su, md⟩).headD 0) := by
  refine ⟨?_, ?_, ?_, ?_⟩
  · intro m b a
    constructor
    · intro h; rw [speedBonus, if_pos h]
    · intro h; rw [speedBonus, if_neg (not_lt.mpr h)]
  · intro s r su md T1 T2 h12 h2
    simp only [CustomerSupport.broadcast_rewards, List.map, List.headD,
      CustomerSupport.step_reward, Option.getD_some]
    have := speedBonus_strict_anti 3 240 (by norm_num) (by norm_num) h12 h2
    gcongr
  · intro s r su md T1 T2 h12 h2
    simp only [CodeReview.broadcast_rewards, List.map, List.headD,
      CodeReview.step_reward, Option.getD_some]
    have := speedBonus_strict_anti 5 1800 (by norm_num) (by norm_num) h12 h2
    gcongr
  · intro s r su md T1 T2 h12 h2
    simp only [DataAnalysis.broadcast_rewards, List.map, List.headD,
      DataAnalysis.step_reward, Option.getD_some]
    have := speedBonus_strict_anti 5 3600 (by norm_num) (by norm_num) h12 h2
    gcongr

/-- Claim C5 witness: concrete times 60 < 120 below each baseline. -/
theorem spec_c5_witness :
    ((60 : ℚ) < 120 ∧ (120 : ℚ) < 240
      ∧ (CustomerSupport.broadcast_rewards
          ⟨[{ response_time := some 120 }], 0, true, {}⟩).headD 0
        < (CustomerSupport.broadcast_rewards
          ⟨[{ response_time := some 60 }], 0, true, {}⟩).headD 0)
    ∧ ((60 : ℚ) < 120 ∧ (120 : ℚ) < 1800
      ∧ (CodeReview.broadcast_rewards
          ⟨[{ review_time := some 120 }], 0, true, {}⟩).headD 0
        < (CodeReview.broadcast_rewards
          ⟨[{ review_time := some 60 }], 0, true, {}⟩).headD 0)
    ∧ ((60 : ℚ) < 120 ∧ (120 : ℚ) < 3600
      ∧ (DataAnalysis.broadcast_rewards
          ⟨[{ analysis_time := some 120 }], 0, true, {}⟩).headD 0
        < (DataAnalysis.broadcast_rewards
          ⟨[{ analysis_time := some 60 }], 0, true, {}⟩).headD 0) := by
  refine ⟨⟨by norm_num, by norm_num, ?_⟩, ⟨by norm_num, by norm_num, ?_⟩,
    ⟨by norm_num, by norm_num, ?_⟩⟩
  · exact spec_c5.2.1 {} 0 true {} 60 120 (by norm_num) (by norm_num)
  · exact spec_c5.2.2.1 {} 0 true {} 60 120 (by norm_num) (by norm_num)
  · exact spec_c5.2.2.2 {} 0 true {} 60 120 (by norm_num) (by norm_num)

/-- Claim C3 fails on the code: a single failed trajectory whose metadata has
`found_all_issues: True` is not counted by `review_completeness` (the
implementation additionally requires `t.success`), while the spec's formula
counts it. -/
theorem spec_c3_counterexample :
    (CodeReview.calculate_metrics
      [{ steps := [], success := false,
         metadata := { found_all_issues := some true } }]).review_completeness = 0
    ∧ CodeReview.review_completeness_spec
        [{ steps := [], success := false,
           metadata := { found_all_issues := some true } }] = 1
    ∧ (0 : ℚ) ≠ 1 := by
  refine ⟨?_, ?_, by norm_num⟩
  · norm_num [CodeReview.calculate_metrics, CodeReview.complete_reviews_count]
  · norm_num [CodeReview.review_completeness_spec]

/-- Claim C3 (amended): for every non-empty trajectory list,
`review_completeness` equals the number of trajectories that are successful
AND whose metadata `found_all_issues` is true, divided by the total number of
trajectories. -/
theorem spec_c3_amended (ts : List (Trajectory CodeReview.Step)) (h : ts ≠ []) :
    (CodeReview.calculate_metrics ts).review_completeness
      = ((ts.filter
            (fun t => t.success && t.metadata.found_all_issues.getD false)).length : ℚ)
        / ts.length := by
  have hne : ts.isEmpty = false := by
    cases ts with
    | nil => exact absurd rfl h
    | cons a l => rfl
  simp [CodeReview.calculate_metrics, hne, CodeReview.complete_reviews_count]

/-- Claim C3 witness: one successful complete review out of two trajectories. -/
theorem spec_c3_amended_witness :
    ([({ steps := [], success := true,
          metadata := { found_all_issues := some true } } : Trajectory CodeReview.Step),
       { steps := [], success := false }] ≠ [])
    ∧ (CodeReview.calculate_metrics
        [{ steps := [], success := true,
           metadata := { found_all_issues := some true } },
         { steps := [], success := false }]).review_completeness
      = (([({ steps := [], success := true,
               metadata := { found_all_issues := some true } } : Trajectory CodeReview.Step),
            { steps := [], success := false }].filter
            (fun t => t.success && t.metadata.found_all_issues.getD false)).length : ℚ)
        / ([({ steps := [], success := true,
               metadata := { found_all_issues := some true } } : Trajectory CodeReview.Step),
            { steps := [], success := false }].length) :=
  ⟨by simp, spec_c3_amended _ (by simp)⟩

/-- Claim C7: zero-denominator ratios yield 0.0 and the empty trajectory list
yields all-zero metrics with `None` convergence, for the base aggregator and
for every concrete scenario (for CodeReview the empty result also leaves
`avg_review_time` unset). -/
theorem spec_c7 :
    (∀ σ : Type, ScenarioBase.calculate_metrics ([] : List (Trajectory σ))
      = ⟨0, 0, 0, 0, 0, 0, none⟩)
    ∧ CustomerSupport.calculate_metrics [] = ⟨⟨0, 0, 0, 0, 0, 0, none⟩, 0⟩
    ∧ CodeReview.calculate_metrics [] = ⟨⟨0, 0, 0, 0, 0, 0, none⟩, 0, 0, 0, none⟩
    ∧ DataAnalysis.calculate_metrics [] = ⟨⟨0, 0, 0, 0, 0, 0, none⟩, 0, 0, 0, 0⟩
    ∧ (∀ ts, CodeReview.issues_found_count ts = 0 →
        (CodeReview.calculate_metrics ts).false_positive_rate = 0)
    ∧ (∀ ts, CodeReview.total_possible_issues ts = 0 →
        (CodeReview.calculate_metrics ts).review_accuracy = 0)
    ∧ (∀ ts, DataAnalysis.total_insights ts = 0 →
        (DataAnalysis.calculate_metrics ts).analysis_accuracy = 0
        ∧ (DataAnalysis.calculate_metrics ts).insight_quality = 0)
    ∧ (∀ ts, DataAnalysis.total_data_steps ts = 0 →
        (DataAnalysis.calculate_metrics ts).data_quality = 0)
    ∧ (∀ ts, DataAnalysis.total_visualizations ts = 0 →
        (DataAnalysis.calculate_metrics ts).visualization_quality = 0) := by
  refine ⟨?_, ?_, ?_, ?_, ?_, ?_, ?_, ?_, ?_⟩
  · intro σ; rfl
  · rfl
  · rfl
  · rfl
  · intro ts h
    by_cases hts : ts.isEmpty
    · simp [CodeReview.calculate_metrics, hts]
    · simp [CodeReview.calculate_metrics, hts, h]
  · intro ts h
    by_cases hts : ts.isEmpty
    · simp [CodeReview.calculate_metrics, hts]
    · simp [CodeReview.calculate_metrics, hts, h]
  · intro ts h
    by_cases hts : ts.isEmpty
    · constructor <;> simp [DataAnalysis.calculate_metrics, hts]
    · constructor <;> simp [DataAnalysis.calculate_metrics, hts, h]
  · intro ts h
    by_cases hts : ts.isEmpty
    · simp [DataAnalysis.calculate_metrics, hts]
    · simp [DataAnalysis.calculate_metrics, hts, h]
  · intro ts h
    by_cases hts : ts.isEmpty
    · simp [DataAnalysis.calculate_metrics, hts]
    · simp [DataAnalysis.calculate_metrics, hts, h]

/-- Claim C7 witness: a non-empty trajectory list with a single marker-less
step has every denominator zero, and all the guarded ratios are 0. -/
theorem spec_c7_witness :
    (CodeReview.issues_found_count [{ steps := [{}] }] = 0
      ∧ (CodeReview.calculate_metrics [{ steps := [{}] }]).false_positive_rate = 0)
    ∧ (CodeReview.total_possible_issues [{ steps := [{}] }] = 0
      ∧ (CodeReview.calculate_metrics [{ steps := [{}] }]).review_accuracy = 0)
    ∧ (DataAnalysis.total_insights [{ steps := [{}] }] = 0
      ∧ (DataAnalysis.calculate_metrics [{ steps := [{}] }]).analysis_accuracy = 0
      ∧ (DataAnalysis.calculate_metrics [{ steps := [{}] }]).insight_quality = 0)
    ∧ (DataAnalysis.total_data_steps [{ steps := [{}] }] = 0
      ∧ (DataAnalysis.calculate_metrics [{ steps := [{}] }]).data_quality = 0)
    ∧ (DataAnalysis.total_visualizations [{ steps := [{}] }] = 0
      ∧ (DataAnalysis.calculate_metrics [{ steps := [{}] }]).visualization_quality = 0) := by
  refine ⟨⟨by rfl, ?_⟩, ⟨by rfl, ?_⟩, ?_, ⟨by rfl, ?_⟩, ⟨by rfl, ?_⟩⟩
  · exact spec_c7.2.2.2.2.1 _ (by rfl)
  · exact spec_c7.2.2.2.2.2.1 _ (by rfl)
  · exact ⟨rfl, (spec_c7.2.2.2.2.2.2.1 _ (by rfl)).1,
      (spec_c7.2.2.2.2.2.2.1 _ (by rfl)).2⟩
  · exact spec_c7.2.2.2.2.2.2.2.1 _ (by rfl)
  · exact spec_c7.2.2.2.2.2.2.2.2 _ (by rfl)

/-- Claim C4 fails on the code for `learning_rate`: the field only requires
`> 0`, so the out-of-(0,1] value 1.5 is accepted at construction. -/
theorem spec_c4_counterexample :
    (mkTrainingConfig "customer_support" "langchain" 10000 "auto" "auto"
      (3 / 2) (95 / 100) 64 100 1000 true none).isOk = true
    ∧ ¬ ((3 : ℚ) / 2 ≤ 1) := by
  constructor
  · have h1 : scenario_name_chars_ok "customer_support" = true := by decide
    norm_num [mkTrainingConfig, h1, seed_ok, Except.isOk, Except.toBool]
  · norm_num

/-- Inversion of a successful `mkTrainingConfig`: the stored fields and the
numeric bounds the passed validation guarantees. -/
theorem mkTrainingConfig_ok_inv (sn fw : String) (ep : ℤ) (gp gt : String)
    (lr df : ℚ) (bs ms ci : ℤ) (vb : Bool) (sd : Option ℤ) (cfg : TrainingConfig)
    (hcfg : mkTrainingConfig sn fw ep gp gt lr df bs ms ci vb sd = .ok cfg) :
    cfg = ⟨str_lower sn, fw, ep, gp, gt, lr, df, bs, ms, ci, vb, sd⟩
    ∧ 0 < lr ∧ 0 < df ∧ df < 1 := by
  unfold mkTrainingConfig at hcfg
  by_cases c1 : scenario_name_chars_ok sn = false
  · rw [if_pos c1] at hcfg; cases hcfg
  rw [if_neg c1] at hcfg
  by_cases c2 : fw ≠ "langchain" ∧ fw ≠ "autogen" ∧ fw ≠ "crewai"
  · rw [if_pos c2] at hcfg; cases hcfg
  rw [if_neg c2] at hcfg
  by_cases c3 : ep ≤ 0
  · rw [if_pos c3] at hcfg; cases hcfg
  rw [if_neg c3] at hcfg
  by_cases c4 : gp ≠ "auto" ∧ gp ≠ "local" ∧ gp ≠ "runpod" ∧ gp ≠ "lambda" ∧ gp ≠ "cloud"
  · rw [if_pos c4] at hcfg; cases hcfg
  rw [if_neg c4] at hcfg
  by_cases c5 : lr ≤ 0
  · rw [if_pos c5] at hcfg; cases hcfg
  rw [if_neg c5] at hcfg
  by_cases c6 : df ≤ 0
  · rw [if_pos c6] at hcfg; cases hcfg
  rw [if_neg c6] at hcfg
  by_cases c7 : (1 : ℚ) ≤ df
  · rw [if_pos c7] at hcfg; cases hcfg
  rw [if_neg c7] at hcfg
  by_cases c8 : bs ≤ 0
  · rw [if_pos c8] at hcfg; cases hcfg
  rw [if_neg c8] at hcfg
  by_cases c9 : ms ≤ 0
  · rw [if_pos c9] at hcfg; cases hcfg
  rw [if_neg c9] at hcfg
  by_cases c10 : ci < 0
  · rw [if_pos c10] at hcfg; cases hcfg
  rw [if_neg c10] at hcfg
  by_cases c11 : seed_ok sd = false
  · rw [if_pos c11] at hcfg; cases hcfg
  rw [if_neg c11] at hcfg
  cases hcfg
  exact ⟨rfl, lt_of_not_le c5, lt_of_not_le c6, lt_of_not_le c7⟩

/-- Claim C4 (amended): construction fails whenever `learning_rate ≤ 0` or
`discount_factor` is outside the open interval (0,1) — `learning_rate` has no
upper bound — and a successful construction stores `learning_rate` and
`discount_factor` unchanged (never clamped), guaranteeing `0 < learning_rate`
and `0 < discount_factor < 1`. -/
theorem spec_c4_amended (sn fw : String) (ep : ℤ) (gp gt : String)
    (lr df : ℚ) (bs ms ci : ℤ) (vb : Bool) (sd : Option ℤ) :
    ((lr ≤ 0 ∨ df ≤ 0 ∨ 1 ≤ df) →
      ∃ e, mkTrainingConfig sn fw ep gp gt lr df bs ms ci vb sd = .error e)
    ∧ (∀ cfg, mkTrainingConfig sn fw ep gp gt lr df bs ms ci vb sd = .ok cfg →
        cfg.learning_rate = lr ∧ cfg.discount_factor = df
        ∧ 0 < lr ∧ 0 < df ∧ df < 1) := by
  constructor
  · intro h
    cases hmk : mkTrainingConfig sn fw ep gp gt lr df bs ms ci vb sd with
    | error e => exact ⟨e, rfl⟩
    | ok cfg =>
      exfalso
      obtain ⟨-, hlr, hdf0, hdf1⟩ :=
        mkTrainingConfig_ok_inv sn fw ep gp gt lr df bs ms ci vb sd cfg hmk
      rcases h with h | h | h <;> linarith
  · intro cfg hcfg
    obtain ⟨hfields, hlr, hdf0, hdf1⟩ :=
      mkTrainingConfig_ok_inv sn fw ep gp gt lr df bs ms ci vb sd cfg hcfg
    subst hfields
    exact ⟨rfl, rfl, hlr, hdf0, hdf1⟩

/-- Claim C4 witness: `learning_rate = 0` is rejected, and a valid
construction with `learning_rate = 0.0003` keeps the value unchanged. -/
theorem spec_c4_amended_witness :
    (((0 : ℚ) ≤ 0 ∨ (95 / 100 : ℚ) ≤ 0 ∨ 1 ≤ (95 / 100 : ℚ))
      ∧ ∃ e, mkTrainingConfig "customer_support" "langchain" 10000 "auto" "auto"
          0 (95 / 100) 64 100 1000 true none = .error e)
    ∧ (mkTrainingConfig "customer_support" "langchain" 10000 "auto" "auto"
        (3 / 10000) (95 / 100) 64 100 1000 true none
        = .ok ⟨"customer_support", "langchain", 10000, "auto", "auto",
            3 / 10000, 95 / 100, 64, 100, 1000, true, none⟩
      ∧ (0 : ℚ) < 3 / 10000 ∧ (0 : ℚ) < 95 / 100 ∧ (95 / 100 : ℚ) < 1) := by
  have hok : mkTrainingConfig "customer_support" "langchain" 10000 "auto" "auto"
      (3 / 10000) (95 / 100) 64 100 1000 true none
      = .ok ⟨"customer_support", "langchain", 10000, "auto", "auto",
          3 / 10000, 95 / 100, 64, 100, 1000, true, none⟩ := by
    have h1 : scenario_name_chars_ok "customer_support" = true := by decide
    have h2 : str_lower "customer_support" = "customer_support" := by decide
    norm_num [mkTrainingConfig, h1, h2, seed_ok]
  refine ⟨⟨Or.inl le_rfl,
    (spec_c4_amended "customer_support" "langchain" 10000 "auto" "auto"
      0 (95 / 100) 64 100 1000 true none).1 (Or.inl le_rfl)⟩, hok, ?_⟩
  have h := (spec_c4_amended "customer_support" "langchain" 10000 "auto" "auto"
    (3 / 10000) (95 / 100) 64 100 1000 true none).2 _ hok
  exact ⟨h.2.2.1, h.2.2.2⟩

/-- A constructible config survives re-validation of its own dump. -/
theorem toConfig_to_dict (c : TrainingConfig) (h : ConfigConstructible c) :
    (TrainingConfig.to_dict c).toConfig = .ok c := by
  obtain ⟨sn, fw, ep, gp, gt, lr, df, bs, ms, ci, vb, sd⟩ := c
  obtain ⟨h1, h2, h3, h4, h5, h6, h7, h8, h9, h10, h11, h12⟩ := h
  simp only [TrainingConfig.to_dict, ConfigDict.toConfig] at *
  unfold mkTrainingConfig
  rw [if_neg (by simp [h1]), if_neg h3, if_neg (not_le.mpr h4), if_neg h5,
    if_neg (not_le.mpr h6), if_neg (not_le.mpr h7), if_neg (not_le.mpr h8),
    if_neg (not_le.mpr h9), if_neg (not_le.mpr h10), if_neg (not_lt.mpr h11),
    if_neg (by simp [h12]), h2]

/-- Constructible metrics survive re-validation of their own dump. -/
theorem toMetrics_to_dict (m : TrainingMetrics) (h : MetricsConstructible m) :
    (TrainingMetrics.to_dict m).toMetrics = .ok m := by
  obtain ⟨tr, atk, art, cr, ec, ttt, fr, ce⟩ := m
  obtain ⟨h1, h2, h3, h4, h5, h6, h7⟩ := h
  simp only [TrainingMetrics.to_dict, MetricsDict.toMetrics] at *
  unfold mkTrainingMetrics
  rw [if_neg (by push_neg; exact ⟨h1, h2⟩), if_neg (by push_neg; exact ⟨h3, h4⟩),
    if_neg (not_lt.mpr h5), if_neg (not_lt.mpr h6), if_neg (not_lt.mpr h7)]

/-- Claim C8: for every `TrainingResult` (whose config and metrics satisfy the
invariants any constructed instance has), `from_dict (to_dict r)` succeeds and
reproduces every field of `r` exactly. -/
theorem spec_c8 {α : Type} (r : TrainingResult α)
    (hc : ConfigConstructible r.config) (hm : MetricsConstructible r.metrics) :
    TrainingResult.from_dict (TrainingResult.to_dict r) = .ok r := by
  obtain ⟨c, m, p, a, ts, v⟩ := r
  simp only [TrainingResult.from_dict, TrainingResult.to_dict, bind, Except.bind,
    toConfig_to_dict c hc, toMetrics_to_dict m hm, pure, Except.pure]

/-- Claim C8 witness: a concrete result round-trips. -/
theorem spec_c8_witness :
    ConfigConstructible ⟨"customer_support", "langchain", 10, "auto", "auto",
        3 / 10000, 19 / 20, 64, 100, 1000, true, none⟩
    ∧ MetricsConstructible ⟨19 / 20, 200, 1, 3 / 10, 10, 0, 0, none⟩
    ∧ TrainingResult.from_dict (TrainingResult.to_dict
        (⟨⟨"customer_support", "langchain", 10, "auto", "auto",
            3 / 10000, 19 / 20, 64, 100, 1000, true, none⟩,
          ⟨19 / 20, 200, 1, 3 / 10, 10, 0, 0, none⟩,
          "./models/customer_support_langchain_ep10", (),
          "2025-01-01T00:00:00+00:00", "0.1.0"⟩ : TrainingResult Unit))
      = .ok ⟨⟨"customer_support", "langchain", 10, "auto", "auto",
            3 / 10000, 19 / 20, 64, 100, 1000, true, none⟩,
          ⟨19 / 20, 200, 1, 3 / 10, 10, 0, 0, none⟩,
          "./models/customer_support_langchain_ep10", (),
          "2025-01-01T00:00:00+00:00", "0.1.0"⟩ := by
  have hc : ConfigConstructible ⟨"customer_support", "langchain", 10, "auto",
      "auto", 3 / 10000, 19 / 20, 64, 100, 1000, true, none⟩ :=
    ⟨by decide, by decide, by decide, by decide, by decide,
     by norm_num, by norm_num, by norm_num, by decide, by decide, by decide,
     by decide⟩
  have hm : MetricsConstructible ⟨19 / 20, 200, 1, 3 / 10, 10, 0, 0, none⟩ :=
    ⟨by norm_num, by norm_num, by norm_num, by norm_num, by norm_num,
     by norm_num, by decide⟩
  exact ⟨hc, hm, spec_c8 _ hc hm⟩

/-- Folding the loop body over `range n` appends one trajectory per episode
and leaves the episode counter at `n` (for any tracking period `p`). -/
theorem train_foldl_counts {ε : Type} (p : ℕ) (draws : ℕ → EpisodeDraw)
    (scen : ScenarioIface ε) (n : ℕ) :
    ((List.range n).foldl (train_episode p draws scen)
      ⟨[], [], 0⟩).trajectories.length = n
    ∧ ((List.range n).foldl (train_episode p draws scen)
      ⟨[], [], 0⟩).episode_count = n := by
  induction n with
  | zero => exact ⟨rfl, rfl⟩
  | succ n ih =>
    rw [List.range_succ, List.foldl_append, List.foldl_cons, List.foldl_nil]
    refine ⟨?_, ?_⟩
    · simp [train_episode, ih.1]
    · simp [train_episode]

/-- After the episode loop, one trajectory has been appended per episode and
the episode counter equals the episode count. -/
theorem train_loop_counts {ε : Type} (episodes : ℕ) (draws : ℕ → EpisodeDraw)
    (scen : ScenarioIface ε) :
    (train_loop episodes draws scen).trajectories.length = episodes
    ∧ (train_loop episodes draws scen).episode_count = episodes :=
  train_foldl_counts episodes draws scen episodes

/-- `_create_result` succeeds whenever the scenario's final metrics pass the
`TrainingMetrics` range checks, and records the episode counter. -/
theorem create_result_ok {ε : Type} (cfg : TrainingConfig)
    (scen : ScenarioIface ε) (st : TrainRunState) (now : String)
    (hv : ViewInRange (scen.calculate_metrics st.trajectories)) :
    create_result cfg scen st now = .ok
      ⟨cfg,
       ⟨(scen.calculate_metrics st.trajectories).tool_reliability.getD 0,
        (scen.calculate_metrics st.trajectories).avg_tokens_used.getD 0,
        (scen.calculate_metrics st.trajectories).avg_response_time.getD 0,
        (scen.calculate_metrics st.trajectories).cost_reduction.getD 0,
        (st.episode_count : ℤ),
        (scen.calculate_metrics st.trajectories).total_training_time.getD 0,
        (scen.calculate_metrics st.trajectories).final_reward.getD 0,
        (scen.calculate_metrics st.trajectories).convergence_episode⟩,
       "./models/" ++ cfg.scenario_name ++ "_" ++ cfg.framework ++ "_ep"
         ++ toString cfg.episodes,
       ⟨st.trajectories.length, st.metrics_history⟩, now, "0.1.0"⟩ := by
  obtain ⟨v1, v2, v3, v4, v5, v6⟩ := hv
  simp only [create_result, mkTrainingMetrics, bind, Except.bind, pure,
    Except.pure]
  rw [if_neg (by push_neg; exact ⟨v1, v2⟩), if_neg (by push_neg; exact ⟨v3, v4⟩),
    if_neg (not_lt.mpr v5), if_neg (not_lt.mpr v6),
    if_neg (not_lt.mpr (Int.natCast_nonneg _))]

/-- Claim C9 fails as stated for an arbitrary supplied scenario: a scenario
whose `calculate_metrics` reports `tool_reliability` 2.0 makes the
`TrainingMetrics` validation inside `_create_result` raise, so `train()` does
not return a result. -/
theorem spec_c9_counterexample :
    (Trainer.train
      ⟨"customer_support", "langchain", 1, "auto", "auto", 3 / 10000, 19 / 20,
        64, 100, 1000, true, none⟩
      ⟨(), fun _ => [], fun _ => { tool_reliability := some 2 }⟩
      (fun _ => ⟨true, 3, 200, 1⟩) "2025-01-01T00:00:00+00:00").isOk
      = false := by
  norm_num [Trainer.train, create_result, mkTrainingMetrics, bind, Except.bind,
    Except.isOk, Except.toBool]

/-- Claim C9 (amended): for every config with `episodes = N > 0` and every
supplied scenario whose `calculate_metrics` yields values passing the
`TrainingMetrics` range validation, `train()` returns a result whose
`metrics.episodes_completed` equals `N`, and the trainer has collected
exactly `N` trajectories (one appended per episode). -/
theorem spec_c9_amended {ε : Type} (cfg : TrainingConfig)
    (hep : 0 < cfg.episodes) (scen : ScenarioIface ε)
    (draws : ℕ → EpisodeDraw) (now : String)
    (hscen : ∀ ts, ViewInRange (scen.calculate_metrics ts)) :
    ∃ r st, Trainer.train cfg scen draws now = .ok (r, st)
      ∧ r.metrics.episodes_completed = cfg.episodes
      ∧ st.trajectories.length = cfg.episodes.toNat := by
  obtain ⟨hlen, hcount⟩ := train_loop_counts cfg.episodes.toNat draws scen
  have hcr := create_result_ok cfg scen
    (train_loop cfg.episodes.toNat draws scen) now (hscen _)
  have htrain : Trainer.train cfg scen draws now
      = Except.map (fun r => (r, train_loop cfg.episodes.toNat draws scen))
          (create_result cfg scen (train_loop cfg.episodes.toNat draws scen) now) := by
    cases hc2 : create_result cfg scen (train_loop cfg.episodes.toNat draws scen) now <;>
      simp [Trainer.train, bind, Except.bind, Except.map, pure, Except.pure, hc2]
  rw [hcr] at htrain
  simp only [Except.map] at htrain
  refine ⟨_, _, htrain, ?_, hlen⟩
  show ((train_loop cfg.episodes.toNat draws scen).episode_count : ℤ)
    = cfg.episodes
  rw [hcount]
  exact Int.toNat_of_nonneg hep.le

/-- Claim C9 witness: three episodes with a scenario reporting in-range
metrics. -/
theorem spec_c9_amended_witness :
    (0 : ℤ) < 3
    ∧ (∀ ts, ViewInRange
        ((⟨(), fun _ => [], fun _ => { tool_reliability := some (1 / 2) }⟩ :
          ScenarioIface Unit).calculate_metrics ts))
    ∧ ∃ r st, Trainer.train
        ⟨"customer_support", "langchain", 3, "auto", "auto", 3 / 10000,
          19 / 20, 64, 100, 1000, true, none⟩
        ⟨(), fun _ => [], fun _ => { tool_reliability := some (1 / 2) }⟩
        (fun _ => ⟨true, 3, 200, 1⟩) "2025-01-01T00:00:00+00:00" = .ok (r, st)
        ∧ r.metrics.episodes_completed = 3
        ∧ st.trajectories.length = (3 : ℤ).toNat := by
  have hv : ∀ ts, ViewInRange
      ((⟨(), fun _ => [], fun _ => { tool_reliability := some (1 / 2) }⟩ :
        ScenarioIface Unit).calculate_metrics ts) := by
    intro ts
    refine ⟨by norm_num, by norm_num, by norm_num, by norm_num, by norm_num,
      by norm_num⟩
  exact ⟨by norm_num, hv,
    spec_c9_amended
      ⟨"customer_support", "langchain", 3, "auto", "auto", 3 / 10000, 19 / 20,
        64, 100, 1000, true, none⟩
      (by norm_num)
      ⟨(), fun _ => [], fun _ => { tool_reliability := some (1 / 2) }⟩
      (fun _ => ⟨true, 3, 200, 1⟩) "2025-01-01T00:00:00+00:00" hv⟩

/-- Claim C10: the lazy built-in population registers only
`customer_support`; from a fresh (or cleared) registry, loading
`code_review` or `data_analysis` fails with the available-scenarios list
exactly `["customer_support"]`. -/
theorem spec_c10 :
    (ensure_built_in_loaded RegistryState.fresh).built_in.map Prod.fst
      = ["customer_support"]
    ∧ (registry_load "code_review" RegistryState.fresh).1
      = .error ⟨"code_review", ["customer_support"]⟩
    ∧ (registry_load "data_analysis" RegistryState.fresh).1
      = .error ⟨"data_analysis", ["customer_support"]⟩
    ∧ (registry_load "customer_support" RegistryState.fresh).1
      = .ok .customerSupport := by
  refine ⟨rfl, ?_, ?_, ?_⟩ <;> rfl
